import Mathlib

/-!
Shallow embedding of `src/application.js` (class `LodeApp`) of the
lode-viewer repository, together with proofs checking the natural-language
specification's claims against it.

Modelling conventions:
* Calls into the external collaborators (the map engine wrapper, the legend
  and opacity controls, the table widget, DOM helpers) are recorded as
  elements of an `Effect` trace, in the order the source issues them.
* JS truthiness of strings is modelled as `≠ ""`; a possibly-absent JS
  object field is an `Option`.
* Numeric payloads that the code only carries around (coordinates, zoom,
  opacity) are modelled as `Int`; no arithmetic is ever performed on them
  in the modelled code.
* Writes to the persisted `Store` are mirrored both as a state update and
  as a `persist…` effect, so that claims about effect ordering and claims
  about resulting state can both be expressed.
-/

namespace LodeViewer

/-- Payload of a configured data source (`DataSources[i].data`); only the
`cluster` flag is inspected by `application.js`. -/
structure SourceData where
  cluster : Bool
deriving DecidableEq, Repr

/-- One entry of `MapDefinition.DataSources`; `name = ""` models a missing
or empty (falsy) `name`, `data = none` a missing (falsy) `data`. -/
structure DataSource where
  name : String
  data : Option SourceData
deriving DecidableEq, Repr

/-- One entry of `MapDefinition.Layers`; `source = ""` models a missing or
empty (falsy) `source` field. -/
structure Layer where
  id : String
  source : String
deriving DecidableEq, Repr

/-- The fields of a map catalog entry (`this.current`) that
`application.js` reads.  `Legend` and `Fields` are opaque payloads handed
to collaborators. -/
structure MapDefinition where
  Style : String
  TableUrl : String
  DataSources : Option (List DataSource)
  Layers : Option (List Layer)
  LayerIDs : List String
  ClickableLayersIDs : List String
  Legend : String
  FullTitle : String
  Subtitle : String
  Fields : String
deriving DecidableEq, Repr

/-- A search item as produced in `AddSearch` from a raw configuration row. -/
structure SearchItem where
  id : String
  name : String
  label : String
  extent : (Int × Int) × (Int × Int)
deriving DecidableEq, Repr

/-- A filter expression literal built by the code:
`["==", ["get", field], value]`. -/
inductive FilterExpr where
  | eqGet (field : String) (value : String)
deriving DecidableEq, Repr

/-- One rule of a legend styling directive literal (`legend.config[i]`):
a color, and optionally a filter expression under key `value`. -/
structure LegendConfigRule where
  color : List Int
  value : Option FilterExpr
deriving DecidableEq, Repr

/-- A legend styling directive literal, as built in
`OnSearchChange_Handler` (`{ config: [...] }`). -/
structure LegendDirective where
  config : List LegendConfigRule
deriving DecidableEq, Repr

/-- Second argument of `map.ApplyLegendStylesToMapLayers`: either the live
legend control object (`this.group.legend`, kept opaque as a `String`
snapshot) or a directive literal. -/
inductive LegendArg where
  | ctl (state : String)
  | directive (d : LegendDirective)
deriving DecidableEq, Repr

/-- A hit-test result feature; only `properties` is read by the click
handler.  Property values are kept as strings (assoc list). -/
structure Feature where
  properties : List (String × String)
deriving DecidableEq, Repr

/-- Observable calls that `application.js` makes into its collaborators,
in source order. -/
inductive Effect where
  | hidePopup (button : String)
  | persistMap (id : String)
  | persistLat (v : Int)
  | persistLng (v : Int)
  | persistZoom (v : Int)
  | persistOpacity (v : Int)
  | setCurrent (m : MapDefinition)
  | setStyle (style : String)
  | emptyTableNode
  | fetchTable (url : String)
  | tableBuilt (result : Nat)
  | legendReload (legend : String) (fullTitle : String) (subtitle : String)
  | setClickableMap
  | addSource (name : String) (data : SourceData)
  | addClusters (source : String)
  | addLayer (l : Layer)
  | applyLegendStylesToMapLayers (ids : List String) (legend : LegendArg)
  | updateMapLayersWithLegendState (ids : List String) (legendCtl : String) (opacity : Int)
  | fitBounds (extent : (Int × Int) × (Int × Int)) (padding : Option Int) (animate : Bool)
  | infoPopup (lngLat : Int) (html : String)
  | tableUpdate (item : SearchItem)
  | searchControlCreated (items : List SearchItem)
deriving DecidableEq, Repr

/-- Effects of one loop iteration of `AddDataSources`:
`if (currentSourceName && currentSourceData) { AddSource(...);
if (data.cluster) AddClusters({source: name}); }`. -/
def dataSourceEffects (src : DataSource) : List Effect :=
  if src.name ≠ "" then
    match src.data with
    | some d =>
        Effect.addSource src.name d ::
          (if d.cluster then [Effect.addClusters src.name] else [])
    | none => []
  else []

/-- `AddDataSources` (application.js lines 94–116): iterate over
`this.current.DataSources` when present and non-empty. -/
def AddDataSources (current : MapDefinition) : List Effect :=
  match current.DataSources with
  | none => []
  | some ds => ds.flatMap dataSourceEffects

/-- Effects of one loop iteration of `AddLayersWithSources`:
`if (currentLayer.source) this.map.AddLayer(currentLayer)`. -/
def layerEffects (l : Layer) : List Effect :=
  if l.source ≠ "" then [Effect.addLayer l] else []

/-- `AddLayersWithSources` (application.js lines 119–133): iterate over
`this.current.Layers` when present and non-empty. -/
def AddLayersWithSources (current : MapDefinition) : List Effect :=
  match current.Layers with
  | none => []
  | some ls => ls.flatMap layerEffects

/-- `OnMapStyleChanged_Handler` (application.js lines 297–309), the
style-ready callback: `SetClickableMap`, `AddDataSources`,
`AddLayersWithSources`, then the two legend styling calls. -/
def OnMapStyleChanged_Handler (current : MapDefinition) (legendCtl : String)
    (opacity : Int) : List Effect :=
  Effect.setClickableMap ::
    AddDataSources current ++ AddLayersWithSources current ++
      [Effect.applyLegendStylesToMapLayers current.LayerIDs (LegendArg.ctl legendCtl),
       Effect.updateMapLayersWithLegendState current.LayerIDs legendCtl opacity]

/-- Does the effect add a source with the given name? -/
def isAddSourceNamed (n : String) : Effect → Bool
  | Effect.addSource m _ => m == n
  | _ => false

/-- Does the effect add a layer with the given id? -/
def isAddLayerId (i : String) : Effect → Bool
  | Effect.addLayer l => l.id == i
  | _ => false

/-- Is the effect one of the two styling-directive recomputation calls? -/
def isStylingEffect : Effect → Bool
  | Effect.applyLegendStylesToMapLayers _ _ => true
  | Effect.updateMapLayersWithLegendState _ _ _ => true
  | _ => false

/-- The persisted session store (`Store.Map`, `Store.Lat`, `Store.Lng`,
`Store.Zoom`, `Store.Opacity`). -/
structure Store where
  map : String
  lat : Int
  lng : Int
  zoom : Int
  opacity : Int
deriving DecidableEq, Repr

/-- `OnMapMoveEnd_Handler` (application.js lines 316–319): persist the map
center's latitude then longitude. -/
def OnMapMoveEnd_Handler (store : Store) (centerLat centerLng : Int) :
    Store × List Effect :=
  ({ store with lat := centerLat, lng := centerLng },
   [Effect.persistLat centerLat, Effect.persistLng centerLng])

/-- `OnMapZoomEnd_Handler` (application.js lines 326–328): persist the
zoom level. -/
def OnMapZoomEnd_Handler (store : Store) (zoom : Int) : Store × List Effect :=
  ({ store with zoom := zoom }, [Effect.persistZoom zoom])

/-- `OnLegend_Changed` (application.js lines 228–230):
`this.map.UpdateMapLayersWithLegendState(this.current.LayerIDs,
this.group.legend, Store.Opacity)`.  `legendCtl` is the opaque snapshot of
`this.group.legend` at call time. -/
def OnLegend_Changed (layerIDs : List String) (legendCtl : String)
    (store : Store) : Store × List Effect :=
  (store,
   [Effect.updateMapLayersWithLegendState layerIDs legendCtl store.opacity])

/-- `OnOpacitySlider_Changed` (application.js lines 236–239):
`Store.Opacity = ev.opacity` then the same styling call. -/
def OnOpacitySlider_Changed (layerIDs : List String) (legendCtl : String)
    (store : Store) (evOpacity : Int) : Store × List Effect :=
  ({ store with opacity := evOpacity },
   [Effect.persistOpacity evOpacity,
    Effect.updateMapLayersWithLegendState layerIDs legendCtl evOpacity])

/-- The arguments of the last `UpdateMapLayersWithLegendState` call in a
trace — the final applied styling directive is the external collaborator's
(pure) function of exactly these arguments. -/
def lastStyleUpdate (effs : List Effect) :
    Option (List String × String × Int) :=
  effs.foldl
    (fun acc e =>
      match e with
      | Effect.updateMapLayersWithLegendState ids ctl op => some (ids, ctl, op)
      | _ => acc)
    none

/-- A pending table fetch issued by `ReloadTable`.  The `generation` field
is ghost instrumentation taken from the spec (§5): the number of
`OnMapSelected` events processed when the fetch was issued.  The source
itself tags fetches with nothing. -/
structure PendingFetch where
  generation : Nat
  url : String
deriving DecidableEq, Repr

/-- Selected event-loop state of a `LodeApp` instance: the persisted map
id, `this.current`, the outstanding table fetches, the table contents, and
the ghost generation counter (bumped on every `OnMapSelected`, per the
spec; it influences nothing in the translated code). -/
structure AppState where
  storeMap : String
  current : MapDefinition
  generation : Nat
  pending : List PendingFetch
  tableData : Option Nat
deriving DecidableEq, Repr

/-- `ReloadTable` (application.js lines 212–222), synchronous part:
`Dom.Empty` the table node and issue `Net.JSON(Core.root +
this.current.TableUrl)`.  The issued fetch is recorded in `pending`,
ghost-tagged with the current generation. -/
def ReloadTable (root : String) (s : AppState) : AppState × List Effect :=
  ({ s with pending := s.pending ++ [⟨s.generation, root ++ s.current.TableUrl⟩] },
   [Effect.emptyTableNode, Effect.fetchTable (root ++ s.current.TableUrl)])

/-- The `.then` callback of `ReloadTable`'s fetch, run when the fetch `f`
resolves with `result`: `this.current.UpdateTable(ev.result)` and a new
`Table` is built from it — unconditionally; the source performs no
staleness check of any kind on `f`. -/
def ReloadTable_then (s : AppState) (f : PendingFetch) (result : Nat) :
    AppState × List Effect :=
  ({ s with pending := s.pending.erase f, tableData := some result },
   [Effect.tableBuilt result])

/-- A `MapSelected` event raised by the maps list control: the selected
map id and its catalog entry. -/
structure MapSelectedEvent where
  id : String
  map : MapDefinition
deriving DecidableEq, Repr

/-- `OnMapSelected_Handler` (application.js lines 276–290): hide the maps
popup, `Store.Map = ev.id`, `this.current = ev.map`, `SetStyle`,
`ReloadTable`, legend `Reload`.  The ghost generation is bumped here, per
the spec's §5. -/
def OnMapSelected_Handler (root : String) (s : AppState)
    (ev : MapSelectedEvent) : AppState × List Effect :=
  let s1 := { s with storeMap := ev.id, current := ev.map,
                     generation := s.generation + 1 }
  let r := ReloadTable root s1
  (r.1,
   [Effect.hidePopup "maps", Effect.persistMap ev.id,
    Effect.setCurrent ev.map, Effect.setStyle ev.map.Style]
     ++ r.2
     ++ [Effect.legendReload ev.map.Legend ev.map.FullTitle ev.map.Subtitle])

/-- `OnMapClick_Handler` (application.js lines 336–352).  The external
collaborators are parameters: `query` is the engine's
`QueryRenderedFeatures`, `fixField` is `Workaround.FixField`
(workaround.js, outside the translated file), `htmlize` is
`Other.HTMLize`, `notAvailable` is `Core.Nls("Map_Not_Available")`. -/
def OnMapClick_Handler (fixField : String → String → String)
    (htmlize : List (String × String) → String → String → String)
    (notAvailable : String) (query : Int → List String → List Feature)
    (current : MapDefinition) (point lngLat : Int) : List Effect :=
  match query point current.ClickableLayersIDs with
  | [] => []
  | f :: _ =>
      let fixed := f.properties.map fun p => (p.1, fixField p.1 p.2)
      [Effect.infoPopup lngLat (htmlize fixed current.Fields notAvailable)]

/-- The `config.search` object: raw items (rows modelling the JS arrays
`[id, name, minLng, minLat, maxLng, maxLat]` positionally), highlight
color, filter field and target layer. -/
structure SearchConfig where
  items : List (String × String × Int × Int × Int × Int)
  color : List Int
  field : String
  layer : String
deriving DecidableEq, Repr

/-- The arrow function inside `AddSearch`'s `.map`: build a search item
from a raw row `i`, with ``label : `${i[1]} (${i[0]})` `` and
`extent : [[i[2], i[3]], [i[4], i[5]]]`. -/
def searchItemOfRow (i : String × String × Int × Int × Int × Int) :
    SearchItem :=
  let id := i.1
  let name := i.2.1
  { id := id
    name := name
    label := s!"{name} ({id})"
    extent := ((i.2.2.1, i.2.2.2.1), (i.2.2.2.2.1, i.2.2.2.2.2)) }

/-- `AddSearch` (application.js lines 154–169): first overwrite
`config.search.items` with the mapped items, then create the search
control from them. -/
def AddSearch (cfg : SearchConfig) : List SearchItem × List Effect :=
  let items := cfg.items.map searchItemOfRow
  (items, [Effect.searchControlCreated items])

/-- `OnSearchChange_Handler` (application.js lines 361–377): build the
two-rule legend literal, focus the table on the item, apply the literal to
the single configured search layer, and fit bounds with
`{ padding: 30, animate: false }`. -/
def OnSearchChange_Handler (cfg : SearchConfig) (item : SearchItem) :
    List Effect :=
  let legend : LegendDirective :=
    { config :=
        [{ color := cfg.color,
           value := some (FilterExpr.eqGet cfg.field item.id) },
         { color := [255, 255, 255, 0], value := none }] }
  [Effect.tableUpdate item,
   Effect.applyLegendStylesToMapLayers [cfg.layer] (LegendArg.directive legend),
   Effect.fitBounds item.extent (some 30) false]

/-- Mapbox credentials entry of `config.credentials`; `accessToken = ""`
models a missing or empty (falsy) token. -/
structure MapboxCred where
  accessToken : String
deriving DecidableEq, Repr

/-- `config.credentials`; `mapbox = none` models a missing key. -/
structure Credentials where
  mapbox : Option MapboxCred
deriving DecidableEq, Repr

/-- The parts of the application `config` object that the translated
functions read. -/
structure AppConfig where
  credentials : Option Credentials
  maps : List (String × MapDefinition)
  search : SearchConfig
deriving DecidableEq, Repr

/-- The token check chain of `AddMap`:
`config.credentials && config.credentials.mapbox &&
config.credentials.mapbox.accessToken`. -/
def mapboxToken (c : AppConfig) : Option String :=
  match c.credentials with
  | none => none
  | some cr =>
      match cr.mapbox with
      | none => none
      | some mb => if mb.accessToken = "" then none else some mb.accessToken

/-- The error message thrown in `AddMap` when the token is missing. -/
def tokenErrorMessage : String :=
  "Mapbox access token must be provided in config.credentials.json to generate a map"

/-- Body of `AddMap`'s `try` block (application.js lines 68–87): throw if
the token is missing, otherwise construct the map (the created map is
represented by the token it was built with). -/
def addMapBody (c : AppConfig) : Except String String :=
  match mapboxToken c with
  | some t => Except.ok t
  | none => Except.error tokenErrorMessage

/-- `AddMap` (application.js lines 65–91): the `try`/`catch`.  On a throw
the error is logged (`console.error`) and the method returns normally with
no map created (`this.map` stays undefined). -/
def AddMap (c : AppConfig) : Option String × List String :=
  match addMapBody c with
  | Except.ok t => (some t, [])
  | Except.error e => (none, [e])

/-- `Util.FirstProperty` applied to the maps catalog: the first entry's
value (JS object properties enumerate in insertion order), or `none` for
an empty catalog. -/
def firstProperty (maps : List (String × MapDefinition)) :
    Option MapDefinition :=
  maps.head?.map (·.2)

/-- `this.config.maps[key]`: exact key lookup in the catalog. -/
def lookupMap (maps : List (String × MapDefinition)) (k : String) :
    Option MapDefinition :=
  (maps.find? (fun p => p.1 == k)).map (·.2)

/-- Constructor lines 21–24: `this.current = this.config.maps[Store.Map]`
and `if (!this.current) this.current = Util.FirstProperty(...)`.  Catalog
entries are JS objects, hence truthy. -/
def constructorCurrent (maps : List (String × MapDefinition))
    (storeMap : String) : Option MapDefinition :=
  match lookupMap maps storeMap with
  | some m => some m
  | none => firstProperty maps

/-! Concrete fixtures used by witnesses, counterexamples and code
evaluations. -/

/-- A small catalog entry "a". -/
def mapA : MapDefinition :=
  { Style := "mapbox://styles/a", TableUrl := "data/a.json",
    DataSources := none, Layers := none, LayerIDs := ["a-layer"],
    ClickableLayersIDs := ["a-layer"], Legend := "legendA",
    FullTitle := "Map A", Subtitle := "subA", Fields := "fieldsA" }

/-- A small catalog entry "b". -/
def mapB : MapDefinition :=
  { Style := "mapbox://styles/b", TableUrl := "data/b.json",
    DataSources := none, Layers := none, LayerIDs := ["b-layer"],
    ClickableLayersIDs := ["b-layer"], Legend := "legendB",
    FullTitle := "Map B", Subtitle := "subB", Fields := "fieldsB" }

/-- A data source with a name but no data: `AddDataSources` skips it. -/
def c2Source : DataSource := { name := "src1", data := none }

/-- A layer whose `source` names `c2Source`. -/
def c2Layer : Layer := { id := "lyr1", source := "src1" }

/-- A map whose only layer references a data source that is never added
to the render surface (its `data` is missing). -/
def c2Map : MapDefinition :=
  { Style := "mapbox://styles/c2", TableUrl := "data/c2.json",
    DataSources := some [c2Source], Layers := some [c2Layer],
    LayerIDs := ["lyr1"], ClickableLayersIDs := ["lyr1"],
    Legend := "legendC2", FullTitle := "C2", Subtitle := "",
    Fields := "fieldsC2" }

/-- App state after the constructor: current map `mapA`, one outstanding
table fetch for `mapA`'s table (ghost generation 0), no table yet. -/
def c1State0 : AppState :=
  { storeMap := "a", current := mapA, generation := 0,
    pending := [⟨0, "root/data/a.json"⟩], tableData := none }

/-- State after `OnMapSelected` switched to `mapB` while `mapA`'s fetch is
still outstanding (ghost generation is now 1). -/
def c1State1 : AppState :=
  (OnMapSelected_Handler "root/" c1State0 ⟨"b", mapB⟩).1

/-- State after the stale `mapA` fetch (ghost generation 0) resolves with
result `42` at current generation 1. -/
def c1State2 : AppState :=
  (ReloadTable_then c1State1 ⟨0, "root/data/a.json"⟩ 42).1

/-- A config with no credentials at all. -/
def noTokenConfig : AppConfig :=
  { credentials := none, maps := [("a", mapA)],
    search := { items := [], color := [], field := "", layer := "" } }

/-! Helper lemmas. -/

/-- `AddDataSources` only ever emits `addSource` and `addClusters`
effects. -/
theorem addLayer_notMem_dataSourceEffects (src : DataSource) (l : Layer) :
    Effect.addLayer l ∉ dataSourceEffects src := by
  unfold dataSourceEffects
  split
  · cases src.data with
    | none => simp
    | some d => cases d.cluster <;> simp
  · simp

/-- `AddDataSources` never emits an `addLayer` effect. -/
theorem addLayer_notMem_AddDataSources (current : MapDefinition) (l : Layer) :
    Effect.addLayer l ∉ AddDataSources current := by
  unfold AddDataSources
  cases current.DataSources with
  | none => simp
  | some ds =>
      simp only [List.mem_flatMap, not_exists]
      intro src
      rintro ⟨-, hmem⟩
      exact addLayer_notMem_dataSourceEffects src l hmem

/-- Membership characterization of the layers attached by
`AddLayersWithSources`: exactly the configured layers with a truthy
`source` field. -/
theorem addLayer_mem_AddLayersWithSources (current : MapDefinition)
    (l : Layer) :
    Effect.addLayer l ∈ AddLayersWithSources current ↔
      ∃ ls, current.Layers = some ls ∧ l ∈ ls ∧ l.source ≠ "" := by
  unfold AddLayersWithSources
  cases h : current.Layers with
  | none => simp
  | some ls =>
      simp only [List.mem_flatMap, Option.some.injEq]
      constructor
      · rintro ⟨a, ha, hmem⟩
        unfold layerEffects at hmem
        split at hmem
        · next hs =>
            simp only [List.mem_singleton, Effect.addLayer.injEq] at hmem
            exact ⟨ls, rfl, hmem ▸ ha, hmem ▸ hs⟩
        · simp at hmem
      · rintro ⟨ls', hls', hl, hs⟩
        refine ⟨l, hls' ▸ hl, ?_⟩
        unfold layerEffects
        simp [hs]

/-! Claim theorems. -/

/-- Claim C1 (code evaluation): the claim states that a table-fetch
completion tagged with generation `g` never updates the table once the
current generation is `g + 1` or greater.  Evaluating the translated code
on a concrete trace — a fetch for `mapA` issued at generation 0, a map
switch to `mapB` raising the generation to 1, then the stale fetch
resolving with result 42 — shows the completion still updates the table:
`ReloadTable`'s `.then` callback performs no staleness check at all. -/
theorem claimC1_stale_fetch_still_updates_table :
    c1State0.pending = [⟨0, "root/data/a.json"⟩] ∧
    c1State0.tableData = none ∧
    c1State1.generation = 1 ∧
    c1State2.tableData = some 42 :=
  ⟨rfl, rfl, rfl, rfl⟩

/-- Claim C2 (counterexample): the claim states a layer is attached iff
its `source` resolves to a DataSource actually added to the render
surface.  On `c2Map` — whose only data source has a name but no `data`,
so it is never added — the layer is still attached, refuting the
equivalence. -/
theorem claimC2_counterexample :
    ¬ ((Effect.addLayer c2Layer ∈ OnMapStyleChanged_Handler c2Map "ctl" 0) ↔
       (OnMapStyleChanged_Handler c2Map "ctl" 0).any
         (isAddSourceNamed c2Layer.source) = true) := by
  decide

/-- Claim C2 (amended): on style-ready, a layer is attached to the render
surface iff it appears in the current MapDefinition's layer list with a
truthy (non-empty) `source` field; whether the named DataSource was
actually added is not checked. -/
theorem claimC2_layer_attached_iff_truthy_source
    (current : MapDefinition) (ctl : String) (op : Int) (l : Layer) :
    Effect.addLayer l ∈ OnMapStyleChanged_Handler current ctl op ↔
      ∃ ls, current.Layers = some ls ∧ l ∈ ls ∧ l.source ≠ "" := by
  unfold OnMapStyleChanged_Handler
  simp only [List.mem_cons, List.mem_append, List.mem_singleton]
  rw [addLayer_mem_AddLayersWithSources]
  simp [addLayer_notMem_AddDataSources current l]

/-- Claim C3: for a valid map id, `OnMapSelected` performs exactly, in
order: hide the maps popup; persist `activeMapId`; set `current` to the
catalog entry; issue the style switch; reload the table from the new
map's `TableUrl`; rebuild the legend from the new map's legend spec. -/
theorem claimC3_map_selected_effects (root : String)
    (maps : List (String × MapDefinition)) (s : AppState)
    (ev : MapSelectedEvent) (m : MapDefinition)
    (hcat : lookupMap maps ev.id = some m) (hev : ev.map = m) :
    (OnMapSelected_Handler root s ev).2 =
      [Effect.hidePopup "maps", Effect.persistMap ev.id,
       Effect.setCurrent m, Effect.setStyle m.Style,
       Effect.emptyTableNode, Effect.fetchTable (root ++ m.TableUrl),
       Effect.legendReload m.Legend m.FullTitle m.Subtitle] ∧
    (OnMapSelected_Handler root s ev).1.storeMap = ev.id ∧
    (OnMapSelected_Handler root s ev).1.current = m := by
  subst hev
  exact ⟨rfl, rfl, rfl⟩

/-- Witness for C3 at a concrete catalog, state and event. -/
theorem claimC3_witness :
    (OnMapSelected_Handler "root/" c1State0 ⟨"b", mapB⟩).2 =
      [Effect.hidePopup "maps", Effect.persistMap "b",
       Effect.setCurrent mapB, Effect.setStyle mapB.Style,
       Effect.emptyTableNode, Effect.fetchTable ("root/" ++ mapB.TableUrl),
       Effect.legendReload mapB.Legend mapB.FullTitle mapB.Subtitle] ∧
    (OnMapSelected_Handler "root/" c1State0 ⟨"b", mapB⟩).1.storeMap = "b" ∧
    (OnMapSelected_Handler "root/" c1State0 ⟨"b", mapB⟩).1.current = mapB :=
  claimC3_map_selected_effects "root/" [("b", mapB)] c1State0 ⟨"b", mapB⟩
    mapB (by decide) rfl

/-- Claim C4: `OnSearchSelected(item)` focuses the table on `item`,
applies the two-rule directive (rule 1: configured search field equals
`item.id` → configured highlight color; rule 2: fully transparent
fallback) to exactly the one configured search layer, and fits the map to
`item.extent` with animation disabled and 30 px padding — in that
order. -/
theorem claimC4_search_selected (cfg : SearchConfig) (item : SearchItem) :
    OnSearchChange_Handler cfg item =
      [Effect.tableUpdate item,
       Effect.applyLegendStylesToMapLayers [cfg.layer]
         (LegendArg.directive
           { config :=
               [{ color := cfg.color,
                  value := some (FilterExpr.eqGet cfg.field item.id) },
                { color := [255, 255, 255, 0], value := none }] }),
       Effect.fitBounds item.extent (some 30) false] :=
  rfl

/-- Claim C5: the applied styling directive is a (pure) function of the
legend-control state and the opacity: recomputing it twice from the same
state yields the identical call (idempotence), and
`OnOpacityChanged(v); OnLegendChanged(s); OnOpacityChanged(v)` leaves the
same final applied directive as a single `OnLegendChanged(s)` at opacity
`v` (the two recomputations commute).  The legend-control state change to
`s` precedes each `OnLegend_Changed` run, as the external control mutates
itself before raising the event. -/
theorem claimC5_directive_pure_and_commutes (ids : List String)
    (store : Store) (v : Int) (ctl sNew : String) :
    ((OnLegend_Changed ids ctl ((OnLegend_Changed ids ctl store).1)).2 =
      (OnLegend_Changed ids ctl store).2) ∧
    (lastStyleUpdate
        ((OnOpacitySlider_Changed ids ctl store v).2 ++
          (OnLegend_Changed ids sNew
            (OnOpacitySlider_Changed ids ctl store v).1).2 ++
          (OnOpacitySlider_Changed ids sNew
            (OnLegend_Changed ids sNew
              (OnOpacitySlider_Changed ids ctl store v).1).1 v).2) =
      lastStyleUpdate
        (OnLegend_Changed ids sNew { store with opacity := v }).2) :=
  ⟨rfl, rfl⟩

/-- Claim C6: at startup, a persisted map id absent from the catalog
falls back to the catalog's first entry; a present id selects its
entry. -/
theorem claimC6_startup_fallback (maps : List (String × MapDefinition))
    (k : String) :
    (lookupMap maps k = none →
      constructorCurrent maps k = firstProperty maps) ∧
    (∀ m, lookupMap maps k = some m →
      constructorCurrent maps k = some m) := by
  constructor
  · intro h
    simp [constructorCurrent, h]
  · intro m h
    simp [constructorCurrent, h]

/-- Witness for C6: both branches at a concrete one-entry catalog. -/
theorem claimC6_witness :
    (lookupMap [("a", mapA)] "zzz" = none ∧
      constructorCurrent [("a", mapA)] "zzz" = firstProperty [("a", mapA)]) ∧
    (lookupMap [("a", mapA)] "a" = some mapA ∧
      constructorCurrent [("a", mapA)] "a" = some mapA) :=
  ⟨⟨by decide, (claimC6_startup_fallback [("a", mapA)] "zzz").1 (by decide)⟩,
   ⟨by decide, (claimC6_startup_fallback [("a", mapA)] "a").2 mapA (by decide)⟩⟩

/-- Claim C7: the click handler hit-tests the current map's clickable
layers at the click point; an empty result is a no-op, otherwise exactly
the first (topmost) feature has its property values normalized, formatted
against the current map's fields spec, and shown in a popup at the click
location. -/
theorem claimC7_feature_clicked (fixField : String → String → String)
    (htmlize : List (String × String) → String → String → String)
    (na : String) (query : Int → List String → List Feature)
    (current : MapDefinition) (point lngLat : Int) :
    (query point current.ClickableLayersIDs = [] →
      OnMapClick_Handler fixField htmlize na query current point lngLat = []) ∧
    (∀ f rest, query point current.ClickableLayersIDs = f :: rest →
      OnMapClick_Handler fixField htmlize na query current point lngLat =
        [Effect.infoPopup lngLat
          (htmlize (f.properties.map fun p => (p.1, fixField p.1 p.2))
            current.Fields na)]) := by
  constructor
  · intro h
    simp [OnMapClick_Handler, h]
  · intro f rest h
    simp [OnMapClick_Handler, h]

/-- Witness for C7: both branches with concrete collaborators. -/
theorem claimC7_witness :
    OnMapClick_Handler (fun _ v => v) (fun _ _ na => na) "NA"
        (fun _ _ => []) c2Map 0 0 = [] ∧
    OnMapClick_Handler (fun _ v => v) (fun _ _ na => na) "NA"
        (fun _ _ => [⟨[("p", "1")]⟩]) c2Map 0 0 =
      [Effect.infoPopup 0 "NA"] :=
  ⟨(claimC7_feature_clicked (fun _ v => v) (fun _ _ na => na) "NA"
      (fun _ _ => []) c2Map 0 0).1 rfl,
   (claimC7_feature_clicked (fun _ v => v) (fun _ _ na => na) "NA"
      (fun _ _ => [⟨[("p", "1")]⟩]) c2Map 0 0).2 ⟨[("p", "1")]⟩ [] rfl⟩

/-- Claim C8: with no mapping-provider access token configured, map
construction fails (the `try` body throws), the error is caught and
logged, and `AddMap` returns normally with no live map instead of
propagating the exception out of the constructor. -/
theorem claimC8_missing_token (c : AppConfig) (h : mapboxToken c = none) :
    addMapBody c = Except.error tokenErrorMessage ∧
    AddMap c = (none, [tokenErrorMessage]) := by
  constructor <;> simp [AddMap, addMapBody, h]

/-- Witness for C8 at a config with no credentials. -/
theorem claimC8_witness :
    addMapBody noTokenConfig = Except.error tokenErrorMessage ∧
    AddMap noTokenConfig = (none, [tokenErrorMessage]) :=
  claimC8_missing_token noTokenConfig rfl

/-- Claim C9: the pan-settled handler persists exactly the center's
latitude and longitude, the zoom-settled handler persists exactly the
zoom level; neither emits a styling recomputation, and the other
persisted keys (`activeMapId`, `opacityLevel`) are unchanged. -/
theorem claimC9_pan_zoom_persist_only (store : Store)
    (centerLat centerLng z : Int) :
    (OnMapMoveEnd_Handler store centerLat centerLng).1 =
      { store with lat := centerLat, lng := centerLng } ∧
    (OnMapMoveEnd_Handler store centerLat centerLng).1.map = store.map ∧
    (OnMapMoveEnd_Handler store centerLat centerLng).1.opacity = store.opacity ∧
    (OnMapMoveEnd_Handler store centerLat centerLng).2 =
      [Effect.persistLat centerLat, Effect.persistLng centerLng] ∧
    (OnMapMoveEnd_Handler store centerLat centerLng).2.filter isStylingEffect = [] ∧
    (OnMapZoomEnd_Handler store z).1 = { store with zoom := z } ∧
    (OnMapZoomEnd_Handler store z).1.map = store.map ∧
    (OnMapZoomEnd_Handler store z).1.opacity = store.opacity ∧
    (OnMapZoomEnd_Handler store z).2 = [Effect.persistZoom z] ∧
    (OnMapZoomEnd_Handler store z).2.filter isStylingEffect = [] :=
  ⟨rfl, rfl, rfl, rfl, rfl, rfl, rfl, rfl, rfl, rfl⟩

/-- Claim C10: each raw search row `[id, name, minLng, minLat, maxLng,
maxLat]` is turned into exactly `{id, name, label = "name (id)", extent =
[[minLng, minLat], [maxLng, maxLat]]}`, and this derivation happens
before the search control is created (the control receives the already
derived items). -/
theorem claimC10_search_item_derivation (cfg : SearchConfig) :
    (AddSearch cfg).2 =
      [Effect.searchControlCreated ((AddSearch cfg).1)] ∧
    (AddSearch cfg).1 =
      cfg.items.map (fun i =>
        { id := i.1, name := i.2.1,
          label := i.2.1 ++ " (" ++ i.1 ++ ")",
          extent := ((i.2.2.1, i.2.2.2.1), (i.2.2.2.2.1, i.2.2.2.2.2)) }) :=
  ⟨rfl, rfl⟩

end LodeViewer
